import Mathlib

/-!
Verification development for the VirtualWire ASK packet-radio modem
(saildrones/RobotChipKit, `VirtualWire.h`).

The repository ships the library header `VirtualWire.h`, which fixes the
protocol constants (`VW_MAX_MESSAGE_LEN`, the PLL ramp parameters,
`VW_HEADER_LEN`, ...) and documents the public API (`vw_send`,
`vw_get_message`, `vw_get_rx_good`, ...).  The implementation file
`VirtualWire.cpp` is not part of the tree, so the function bodies below are
modelled from the specification's description of each component
(SymbolCodec, FrameCodec, TransmitEngine, ReceiveEngine, MessageStore,
PublicAPI), with every constant taken from the header.

Machine integers are modelled as `Nat` with explicit reductions modulo
`2^8` / `2^16` where the C code's `uint8_t` / `uint16_t` arithmetic wraps.
-/

set_option maxRecDepth 4096

/-! ## Protocol constants, from `VirtualWire.h` -/

/-- Maximum number of bytes in a message, counting the byte count and FCS
(`#define VW_MAX_MESSAGE_LEN 80`). -/
def VW_MAX_MESSAGE_LEN : Nat := 80

/-- The maximum payload length (`#define VW_MAX_PAYLOAD VW_MAX_MESSAGE_LEN-3`). -/
def VW_MAX_PAYLOAD : Nat := VW_MAX_MESSAGE_LEN - 3

/-- The size of the receiver ramp. Ramp wraps modulo this number
(`#define VW_RX_RAMP_LEN 160`). -/
def VW_RX_RAMP_LEN : Nat := 160

/-- Number of samples per bit (`#define VW_RX_SAMPLES_PER_BIT 8`). -/
def VW_RX_SAMPLES_PER_BIT : Nat := 8

/-- Nominal ramp increment (`#define VW_RAMP_INC (VW_RX_RAMP_LEN/VW_RX_SAMPLES_PER_BIT)`). -/
def VW_RAMP_INC : Nat := VW_RX_RAMP_LEN / VW_RX_SAMPLES_PER_BIT

/-- Ramp midpoint (`#define VW_RAMP_TRANSITION VW_RX_RAMP_LEN/2`). -/
def VW_RAMP_TRANSITION : Nat := VW_RX_RAMP_LEN / 2

/-- Ramp adjustment delta (`#define VW_RAMP_ADJUST 9`). -/
def VW_RAMP_ADJUST : Nat := 9

/-- Retard increment (`#define VW_RAMP_INC_RETARD (VW_RAMP_INC-VW_RAMP_ADJUST)`). -/
def VW_RAMP_INC_RETARD : Nat := VW_RAMP_INC - VW_RAMP_ADJUST

/-- Advance increment (`#define VW_RAMP_INC_ADVANCE (VW_RAMP_INC+VW_RAMP_ADJUST)`). -/
def VW_RAMP_INC_ADVANCE : Nat := VW_RAMP_INC + VW_RAMP_ADJUST

/-- Number of 6-bit words in the header: 36 alternating 1/0 bits followed by
12 bits of start symbol (`#define VW_HEADER_LEN 8`). -/
def VW_HEADER_LEN : Nat := 8

/-! ## SymbolCodec -/

/-- Modelled from the spec: the fixed lookup table of 16 six-bit DC-balanced
symbols of the 4-to-6 bit encoding (`VirtualWire.cpp` is absent from the
tree).  The spec fixes the shape of the table, not its entries: 16 distinct
6-bit values, each with exactly half of its bits set (3 of 6).  The entries
here are 16 such values. -/
def symbols : List Nat :=
  [0xd, 0xe, 0x13, 0x15, 0x16, 0x19, 0x1a, 0x25,
   0x26, 0x29, 0x2a, 0x2c, 0x32, 0x34, 0x23, 0x31]

/-- Modelled from the spec: `encode(nibble: 0..15) -> Symbol` is a table
lookup, a total function with no failure. -/
def SymbolCodec.encode (nibble : Nat) : Nat := symbols.getD nibble 0

/-- Modelled from the spec: `decode(symbol) -> Option<nibble>` is the reverse
lookup, returning failure for any 6-bit value not present in the table. -/
def SymbolCodec.decode (symbol : Nat) : Option Nat :=
  symbols.findIdx? (fun x => x == symbol)

/-- Number of set bits among the six bits of a symbol (used to state the
DC-balance invariant: every symbol has exactly half of its 6 bits set). -/
def popcount6 (s : Nat) : Nat :=
  (s &&& 1) + ((s >>> 1) &&& 1) + ((s >>> 2) &&& 1)
    + ((s >>> 3) &&& 1) + ((s >>> 4) &&& 1) + ((s >>> 5) &&& 1)

/-! ## Checksum

Modelled from the spec: a 16-bit CRC with the CCITT-style polynomial over
length-byte + payload.  `crc_ccitt_update` is the standard bytewise CCITT
update (reflected polynomial 0x8408) used by VirtualWire via `util/crc16.h`;
the transmitted FCS is the ones-complement of the running CRC started at
0xffff, appended low byte first. -/

/-- One step of the CCITT CRC-16: `crc_ccitt_update(crc, data)`. -/
def crc_ccitt_update (crc data : Nat) : Nat :=
  let d1 := (data ^^^ (crc % 256)) % 256
  let d := (d1 ^^^ ((d1 <<< 4) % 256)) % 256
  ((d <<< 8) ||| (crc / 256)) ^^^ (d >>> 4) ^^^ (d <<< 3)

/-- Running CRC over a byte sequence, initial value 0xffff. -/
def vw_crc (bytes : List Nat) : Nat := bytes.foldl crc_ccitt_update 0xffff

/-- The transmitted frame check sequence: ones-complement of the CRC
(16-bit complement, i.e. xor with 0xffff). -/
def fcs (bytes : List Nat) : Nat := vw_crc bytes ^^^ 0xffff

/-! ## FrameCodec -/

/-- The two 6-bit symbols of one byte, high nibble first. -/
def encodeByte (b : Nat) : List Nat :=
  [SymbolCodec.encode (b >>> 4), SymbolCodec.encode (b &&& 0xf)]

/-- Symbol-pair encoding of a byte sequence. -/
def encodeBytes : List Nat → List Nat
  | [] => []
  | b :: t => encodeByte b ++ encodeBytes t

/-- Decode a sequence of 6-bit symbols pairwise back into bytes (first symbol
of each pair is the high nibble); fails on any invalid symbol or on an odd
number of symbols. -/
def decodeSymbolPairs : List Nat → Option (List Nat)
  | [] => some []
  | s1 :: s2 :: rest =>
    match SymbolCodec.decode s1, SymbolCodec.decode s2, decodeSymbolPairs rest with
    | some hi, some lo, some t => some (((hi <<< 4) ||| lo) :: t)
    | _, _, _ => none
  | _ => none

/-- Modelled from the spec: the 8 header symbols — 36 alternating 1/0 bits
(six 0x2a symbols, sent LSBit first) followed by the 12-bit start symbol
(0x38 then 0x2c, the standard VirtualWire start pattern). -/
def vw_headers : List Nat := [0x2a, 0x2a, 0x2a, 0x2a, 0x2a, 0x2a, 0x38, 0x2c]

/-- A built frame; `body` is the symbol-encoded length byte, payload and FCS
that follow the fixed 8-symbol header. -/
structure Frame where
  body : List Nat
deriving DecidableEq

/-- The full symbol sequence of a frame: header then body. -/
def Frame.allSymbols (f : Frame) : List Nat := vw_headers ++ f.body

/-- Modelled from the spec: `build(payload) -> Frame | TooLong`. Rejects
payloads longer than the maximum; the length byte equals payload length +
checksum size; the 16-bit FCS is computed over length-byte + payload and
appended low byte first; each byte becomes a symbol pair, high nibble
first. -/
def FrameCodec.build (payload : List Nat) : Option Frame :=
  if payload.length > VW_MAX_PAYLOAD then none
  else
    let count := payload.length + 2
    let f := fcs (count :: payload)
    some ⟨encodeBytes ((count :: payload) ++ [f % 256, (f >>> 8) % 256])⟩

/-- Modelled from the spec: `parse(received bytes) -> Message | BadLength`.
Checks the length byte against the received byte count, recomputes the FCS
over length-byte + payload and compares it with the received FCS; a mismatch
does not discard the frame — the payload is still returned, flagged bad. -/
def FrameCodec.parse (bytes : List Nat) : Option (List Nat × Bool) :=
  match bytes with
  | [] => none
  | count :: rest =>
    if 2 ≤ rest.length ∧ count = rest.length then
      let payload := rest.take (rest.length - 2)
      let rxcrc := rest.drop (rest.length - 2)
      let f := fcs (count :: payload)
      some (payload, rxcrc == [f % 256, (f >>> 8) % 256])
    else none

/-! ## TransmitEngine -/

/-- Transmit state: the prepared frame's symbols, the bit/symbol cursor and
the active flag.  Owned by the tick handler once armed. -/
structure TxState where
  buf : List Nat
  index : Nat
  active : Bool
deriving DecidableEq

/-- The idle transmitter. -/
def txIdle : TxState := ⟨[], 0, false⟩

/-- `vw_tx_active()`: true if the transmitter is active (`VirtualWire.h`). -/
def vw_tx_active (tx : TxState) : Bool := tx.active

/-- Modelled from the spec: `vw_send(buf, len)` returns whether the message
was accepted. It rejects a payload longer than `VW_MAX_PAYLOAD` and rejects
(channel busy) while a transmission is in flight, leaving the in-flight
state untouched; otherwise it arms the transmitter with the built frame. -/
def vw_send (tx : TxState) (payload : List Nat) : Bool × TxState :=
  if payload.length > VW_MAX_PAYLOAD then (false, tx)
  else if vw_tx_active tx then (false, tx)
  else
    match FrameCodec.build payload with
    | some fr => (true, ⟨fr.allSymbols, 0, true⟩)
    | none => (false, tx)

/-- The six bits of one symbol in transmission order (least-significant bit
first). -/
def symbolBits (s : Nat) : List Nat :=
  [s &&& 1, (s >>> 1) &&& 1, (s >>> 2) &&& 1,
   (s >>> 3) &&& 1, (s >>> 4) &&& 1, (s >>> 5) &&& 1]

/-- The bit sequence emitted for a symbol list. -/
def bitsOfSymbols : List Nat → List Nat
  | [] => []
  | s :: t => symbolBits s ++ bitsOfSymbols t

/-- The exact transmitted bit sequence of a frame. -/
def txBits (f : Frame) : List Nat := bitsOfSymbols f.allSymbols

/-! ## ReceiveEngine and MessageStore -/

/-- The 8-bit good/bad frame counters of the receiver: `uint8_t` counts that
overflow (wrap modulo 256), as documented in `VirtualWire.h` ("this is an
8 bit count and can easily overflow"). -/
def incCounter (c : Nat) : Nat := (c + 1) % 256

/-- The 12-bit window value the receiver matches against to detect the
start of a frame: the last two header symbols, LSBit first. -/
def vw_start_pattern : Nat := 0xb38

/-- Receiver state: hunting/accumulating flag, the 12-bit rolling bit
window, the bit counter, the expected byte count from the length byte, the
byte-assembly buffer, the single completed-message slot (`done`,
`doneBuf`) and the good/bad frame counters. -/
structure RxState where
  active : Bool
  bits : Nat
  bitCount : Nat
  count : Nat
  buf : List Nat
  done : Bool
  doneBuf : List Nat
  good : Nat
  bad : Nat
deriving DecidableEq

/-- The receiver state right after `vw_rx_start()`. -/
def rxInitial : RxState := ⟨false, 0, 0, 0, [], false, [], 0, 0⟩

/-- Is the recomputed checksum of an assembled frame good? -/
def checksumOk (bytes : List Nat) : Bool :=
  match FrameCodec.parse bytes with
  | some (_, g) => g
  | none => false

/-- Modelled from the spec: one post-PLL bit of the receive engine.  The bit
is shifted into the top of the 12-bit window.  While hunting, a window equal
to the start pattern switches to accumulation.  While accumulating, every 12
bits decode as a symbol pair into one byte; a symbol-decode failure aborts
to hunting and counts a bad frame; the first byte is the frame length,
bounded by the maximum (else abort, bad); after the length byte, exactly
`length` further bytes are collected and the full byte sequence is
published to the message slot — counted good exactly when the recomputed
checksum matches, bad otherwise, but published either way. -/
def rxStep (st : RxState) (b : Nat) : RxState :=
  let bits := (st.bits >>> 1) ||| ((b % 2) <<< 11)
  if st.active then
    let bitCount := st.bitCount + 1
    if 12 ≤ bitCount then
      match SymbolCodec.decode (bits &&& 0x3f), SymbolCodec.decode (bits >>> 6) with
      | some hi, some lo =>
        let byte := (hi <<< 4) ||| lo
        if st.buf.isEmpty then
          if byte < 2 ∨ VW_MAX_MESSAGE_LEN < byte + 1 then
            { st with
              active := false
              bits := bits
              bitCount := 0
              bad := incCounter st.bad }
          else
            { st with bits := bits, bitCount := 0, count := byte, buf := [byte] }
        else
          let buf := st.buf ++ [byte]
          if st.count + 1 ≤ buf.length then
            { st with
              active := false
              bits := bits
              bitCount := 0
              done := true
              doneBuf := buf
              buf := []
              good := if checksumOk buf then incCounter st.good else st.good
              bad := if checksumOk buf then st.bad else incCounter st.bad }
          else
            { st with bits := bits, bitCount := 0, buf := buf }
      | _, _ =>
        { st with
          active := false
          bits := bits
          bitCount := 0
          bad := incCounter st.bad }
    else
      { st with bits := bits, bitCount := bitCount }
  else
    if bits == vw_start_pattern then
      { st with active := true, bits := bits, bitCount := 0, buf := [] }
    else
      { st with bits := bits }

/-- Run the receive engine over a bit sequence. -/
def rxRun (st : RxState) (bs : List Nat) : RxState := bs.foldl rxStep st

/-- `vw_have_message()`: true if an unread message is available
(`VirtualWire.h`). -/
def vw_have_message (st : RxState) : Bool := st.done

/-- Modelled from the spec and `VirtualWire.h`: `vw_get_message(buf, len)`
copies up to `len` payload octets of the stored message (good checksum or
not), clears the unread flag, and returns true iff there was a message and
the checksum was good. -/
def vw_get_message (st : RxState) (len : Nat) : List Nat × Bool × RxState :=
  match FrameCodec.parse st.doneBuf with
  | some (payload, g) => (payload.take len, st.done && g, { st with done := false })
  | none => ([], false, { st with done := false })

/-- `vw_get_rx_good()`: the count of good messages received. -/
def vw_get_rx_good (st : RxState) : Nat := st.good

/-- `vw_get_rx_bad()`: the count of bad messages received. -/
def vw_get_rx_bad (st : RxState) : Nat := st.bad

/-! ## PLL ramp -/

/-- Modelled from the spec and the header's ramp-parameter comment: the
increment applied to the PLL ramp on one receive sample tick — the nominal
`VW_RAMP_INC` with no edge, `VW_RAMP_INC_RETARD` on an edge before the ramp
midpoint, `VW_RAMP_INC_ADVANCE` on an edge at or after it. -/
def rampIncrement (edge : Bool) (ramp : Nat) : Nat :=
  if edge then
    if ramp < VW_RAMP_TRANSITION then VW_RAMP_INC_RETARD else VW_RAMP_INC_ADVANCE
  else VW_RAMP_INC

/-- Modelled from the spec: one sample tick of the ramp — add the increment,
wrap modulo `VW_RX_RAMP_LEN`; the returned flag says whether the ramp
wrapped, which is the only event that samples and emits a bit. -/
def rampStep (edge : Bool) (ramp : Nat) : Nat × Bool :=
  if VW_RX_RAMP_LEN ≤ ramp + rampIncrement edge ramp then
    (ramp + rampIncrement edge ramp - VW_RX_RAMP_LEN, true)
  else
    (ramp + rampIncrement edge ramp, false)

/-! ## Configuration -/

/-- Pin/polarity configuration (`vw_set_tx_pin` and friends in
`VirtualWire.h`). -/
structure Config where
  txPin : Nat
  rxPin : Nat
  pttPin : Nat
  rxInverted : Bool
  pttInverted : Bool
deriving DecidableEq

/-- Modelled from the spec and the header doc comments: the configuration in
force before any `vw_set_*` call — transmit data on pin 12, receive data on
pin 11, PTT on pin 10, receiver input not inverted, PTT not inverted. -/
def defaultConfig : Config := ⟨12, 11, 10, false, false⟩

/-- `vw_set_tx_pin(pin)`. -/
def vw_set_tx_pin (c : Config) (pin : Nat) : Config := { c with txPin := pin }

/-- `vw_set_rx_pin(pin)`. -/
def vw_set_rx_pin (c : Config) (pin : Nat) : Config := { c with rxPin := pin }

/-- `vw_set_rx_inverted(inverted)`. -/
def vw_set_rx_inverted (c : Config) (inv : Bool) : Config := { c with rxInverted := inv }

/-- `vw_set_ptt_pin(pin)`. -/
def vw_set_ptt_pin (c : Config) (pin : Nat) : Config := { c with pttPin := pin }

/-- `vw_set_ptt_inverted(inverted)`. -/
def vw_set_ptt_inverted (c : Config) (inv : Bool) : Config := { c with pttInverted := inv }

/-- The level driven onto the PTT pin while the transmitter is enabled: high
unless the PTT-inverted flag is set (`VirtualWire.h`: "By default the PTT
pin goes high when the transmitter is enabled"). -/
def pttLevelWhenEnabled (c : Config) : Bool := !c.pttInverted

/-! ## Helper lemmas -/

/-- Decoding the encoding of any nibble recovers the nibble (table form). -/
theorem dec_enc_fin : ∀ n : Fin 16,
    SymbolCodec.decode (SymbolCodec.encode n.val) = some n.val := by decide

/-- Decoding the encoding of any nibble recovers the nibble. -/
theorem dec_enc_nat (n : Nat) (h : n < 16) :
    SymbolCodec.decode (SymbolCodec.encode n) = some n := dec_enc_fin ⟨n, h⟩

/-- A byte splits into nibbles that recombine to it. -/
theorem byte_nibbles_fin : ∀ b : Fin 256,
    ((b.val >>> 4) <<< 4) ||| (b.val &&& 0xf) = b.val
    ∧ b.val >>> 4 < 16 ∧ b.val &&& 0xf < 16 := by decide

/-- A byte splits into nibbles that recombine to it (`Nat` form). -/
theorem byte_nibbles (b : Nat) (h : b < 256) :
    ((b >>> 4) <<< 4) ||| (b &&& 0xf) = b ∧ b >>> 4 < 16 ∧ b &&& 0xf < 16 :=
  byte_nibbles_fin ⟨b, h⟩

/-- Pairwise decoding inverts symbol-pair encoding on byte sequences. -/
theorem decode_encodeBytes (bytes : List Nat) (h : ∀ b ∈ bytes, b < 256) :
    decodeSymbolPairs (encodeBytes bytes) = some bytes := by
  induction bytes with
  | nil => rfl
  | cons b t ih =>
    have hb : b < 256 := h b (List.mem_cons_self b t)
    have ht : ∀ x ∈ t, x < 256 := fun x hx => h x (List.mem_cons_of_mem b hx)
    have hnib := byte_nibbles b hb
    show decodeSymbolPairs
        (SymbolCodec.encode (b >>> 4) :: SymbolCodec.encode (b &&& 0xf)
          :: encodeBytes t) = some (b :: t)
    simp only [decodeSymbolPairs]
    rw [dec_enc_nat _ hnib.2.1, dec_enc_nat _ hnib.2.2, ih ht]
    simp [hnib.1]

/-- `parse` on a length-correct byte sequence returns the payload and the
checksum comparison. -/
theorem parse_format (count : Nat) (rest : List Nat)
    (h2 : 2 ≤ rest.length) (hc : count = rest.length) :
    FrameCodec.parse (count :: rest)
      = some (rest.take (rest.length - 2),
          rest.drop (rest.length - 2)
            == [fcs (count :: rest.take (rest.length - 2)) % 256,
                (fcs (count :: rest.take (rest.length - 2)) >>> 8) % 256]) := by
  simp only [FrameCodec.parse]
  rw [if_pos ⟨h2, hc⟩]

/-! ## Claim theorems -/

/-- C1: for every payload byte sequence whose length is at most the maximum
payload length, `FrameCodec.parse` applied to the frame produced by
`FrameCodec.build` recovers exactly the original payload bytes and reports
`checksumGood = true`. -/
theorem build_parse_roundtrip (payload : List Nat)
    (hlen : payload.length ≤ VW_MAX_PAYLOAD)
    (hbytes : ∀ b ∈ payload, b < 256) :
    (FrameCodec.build payload).bind
        (fun fr => (decodeSymbolPairs fr.body).bind FrameCodec.parse)
      = some (payload, true) := by
  have hnot : ¬ payload.length > VW_MAX_PAYLOAD := Nat.not_lt.mpr hlen
  have h77 : payload.length ≤ 77 := hlen
  have hcount : payload.length + 2 < 256 := by omega
  have hall : ∀ b ∈ ((payload.length + 2) :: payload)
      ++ [fcs ((payload.length + 2) :: payload) % 256,
          (fcs ((payload.length + 2) :: payload) >>> 8) % 256], b < 256 := by
    intro b hb
    rcases List.mem_append.mp hb with h1 | h2
    · rcases List.mem_cons.mp h1 with rfl | h3
      · exact hcount
      · exact hbytes b h3
    · rcases List.mem_cons.mp h2 with rfl | h4
      · exact Nat.mod_lt _ (by norm_num)
      · rcases List.mem_cons.mp h4 with rfl | h5
        · exact Nat.mod_lt _ (by norm_num)
        · cases h5
  have hbuild : FrameCodec.build payload
      = some ⟨encodeBytes (((payload.length + 2) :: payload)
          ++ [fcs ((payload.length + 2) :: payload) % 256,
              (fcs ((payload.length + 2) :: payload) >>> 8) % 256])⟩ := by
    unfold FrameCodec.build
    rw [if_neg hnot]
  have hdec := decode_encodeBytes _ hall
  have hrest2 : 2 ≤ (payload
      ++ [fcs ((payload.length + 2) :: payload) % 256,
          (fcs ((payload.length + 2) :: payload) >>> 8) % 256]).length := by
    simp
  have hcEq : payload.length + 2 = (payload
      ++ [fcs ((payload.length + 2) :: payload) % 256,
          (fcs ((payload.length + 2) :: payload) >>> 8) % 256]).length := by
    simp
  have hparse := parse_format (payload.length + 2) _ hrest2 hcEq
  have hL : (payload
      ++ [fcs ((payload.length + 2) :: payload) % 256,
          (fcs ((payload.length + 2) :: payload) >>> 8) % 256]).length - 2
      = payload.length := by
    simp
  rw [hL, List.take_left, List.drop_left] at hparse
  rw [hbuild]
  show (decodeSymbolPairs (encodeBytes (((payload.length + 2) :: payload)
      ++ [fcs ((payload.length + 2) :: payload) % 256,
          (fcs ((payload.length + 2) :: payload) >>> 8) % 256]))).bind
      FrameCodec.parse = some (payload, true)
  rw [hdec]
  show FrameCodec.parse (((payload.length + 2) :: payload)
      ++ [fcs ((payload.length + 2) :: payload) % 256,
          (fcs ((payload.length + 2) :: payload) >>> 8) % 256])
      = some (payload, true)
  rw [List.cons_append, hparse]
  simp

/-- C1 witness: the roundtrip theorem instantiated at the payload
`[1, 2, 3]`. -/
theorem build_parse_roundtrip_witness :
    (FrameCodec.build [1, 2, 3]).bind
        (fun fr => (decodeSymbolPairs fr.body).bind FrameCodec.parse)
      = some ([1, 2, 3], true) :=
  build_parse_roundtrip [1, 2, 3] (by decide) (by decide)

/-- C2: for every nibble value, decoding its encoding returns the nibble, and
every encoded symbol is a 6-bit value with exactly half of its bits (3 of 6)
set. -/
theorem symbol_roundtrip_dc_balance :
    ∀ n : Fin 16,
      SymbolCodec.decode (SymbolCodec.encode n.val) = some n.val
      ∧ SymbolCodec.encode n.val < 64
      ∧ popcount6 (SymbolCodec.encode n.val) = 3 := by decide

/-- C3: on a receive sample tick the PLL ramp advances by 20 with no edge, by
the retard increment 11 = 20 − 9 on an edge before the midpoint 80, by the
advance increment 29 = 20 + 9 on an edge at or after it; the ramp wraps
modulo 160 and the wrap is exactly the bit-sampling event. -/
theorem pll_ramp_update (edge : Bool) (ramp : Nat)
    (h : ramp < VW_RX_RAMP_LEN) :
    rampIncrement edge ramp
        = (if edge then (if ramp < 80 then 11 else 29) else 20)
    ∧ VW_RAMP_INC = 160 / 8 ∧ VW_RAMP_TRANSITION = 80
    ∧ VW_RAMP_INC_RETARD = 20 - 9 ∧ VW_RAMP_INC_ADVANCE = 20 + 9
    ∧ (rampStep edge ramp).1 = (ramp + rampIncrement edge ramp) % VW_RX_RAMP_LEN
    ∧ ((rampStep edge ramp).2 = true
        ↔ VW_RX_RAMP_LEN ≤ ramp + rampIncrement edge ramp) := by
  have h160 : ramp < 160 := h
  have hinc : rampIncrement edge ramp
      = (if edge then (if ramp < 80 then 11 else 29) else 20) := by
    simp only [rampIncrement, VW_RAMP_INC_RETARD, VW_RAMP_INC_ADVANCE,
      VW_RAMP_INC, VW_RAMP_ADJUST, VW_RAMP_TRANSITION, VW_RX_RAMP_LEN,
      VW_RX_SAMPLES_PER_BIT]
  refine ⟨hinc, by norm_num [VW_RAMP_INC, VW_RX_RAMP_LEN, VW_RX_SAMPLES_PER_BIT],
    by norm_num [VW_RAMP_TRANSITION, VW_RX_RAMP_LEN],
    by norm_num [VW_RAMP_INC_RETARD, VW_RAMP_INC, VW_RAMP_ADJUST, VW_RX_RAMP_LEN,
      VW_RX_SAMPLES_PER_BIT],
    by norm_num [VW_RAMP_INC_ADVANCE, VW_RAMP_INC, VW_RAMP_ADJUST, VW_RX_RAMP_LEN,
      VW_RX_SAMPLES_PER_BIT], ?_, ?_⟩
  · unfold rampStep
    rw [hinc]
    simp only [VW_RX_RAMP_LEN]
    split_ifs <;> simp <;> omega
  · unfold rampStep
    split_ifs with hw
    · simp [hw]
    · simp [hw]

/-- C3 witness: the ramp-update theorem instantiated at an edge tick with the
ramp at 100 (at or after the midpoint). -/
theorem pll_ramp_update_witness :
    rampIncrement true 100 = (if true then (if 100 < 80 then 11 else 29) else 20)
    ∧ VW_RAMP_INC = 160 / 8 ∧ VW_RAMP_TRANSITION = 80
    ∧ VW_RAMP_INC_RETARD = 20 - 9 ∧ VW_RAMP_INC_ADVANCE = 20 + 9
    ∧ (rampStep true 100).1 = (100 + rampIncrement true 100) % VW_RX_RAMP_LEN
    ∧ ((rampStep true 100).2 = true
        ↔ VW_RX_RAMP_LEN ≤ 100 + rampIncrement true 100) :=
  pll_ramp_update true 100 (by decide)

/-- C4: sending the 3-byte payload `[0x01, 0x02, 0x03]` produces a frame whose
decoded length byte equals 5 (3 payload + 2 checksum bytes), and a receiver
fed the exact transmitted bit sequence reports `vw_have_message() = true`,
with `vw_get_message` returning `[0x01, 0x02, 0x03]` and a good checksum. -/
theorem concrete_send_receive_scenario :
    (FrameCodec.build [1, 2, 3]).map (fun fr =>
      ((decodeSymbolPairs fr.body).map List.head?,
       vw_have_message (rxRun rxInitial (txBits fr)),
       (vw_get_message (rxRun rxInitial (txBits fr)) VW_MAX_MESSAGE_LEN).1,
       (vw_get_message (rxRun rxInitial (txBits fr)) VW_MAX_MESSAGE_LEN).2.1))
      = some (some (some 5), true, [1, 2, 3], true) := by decide

/-- C5 counterexample: the bad-frame counter at its maximum 255 does not stay
at 255 on the next bad-frame event (a symbol-decode failure); it wraps to 0. -/
theorem counters_saturate_counterexample :
    vw_get_rx_bad (rxStep ⟨true, 0, 11, 0, [5], false, [], 0, 255⟩ 0) = 0
    ∧ ¬ vw_get_rx_bad (rxStep ⟨true, 0, 11, 0, [5], false, [], 0, 255⟩ 0) = 255 := by
  decide

/-- C5 (amended): the good-frame and bad-frame counters are 8-bit counts that
wrap modulo 256 on overflow — incrementing a counter at 255 yields 0, below
255 it increments by one. -/
theorem counters_wrap_mod_256 (c : Nat) (h : c ≤ 255) :
    incCounter c = if c = 255 then 0 else c + 1 := by
  unfold incCounter
  split_ifs with h255
  · subst h255; rfl
  · omega

/-- C5 witness: the wrap theorem instantiated at the counter maximum 255. -/
theorem counters_wrap_mod_256_witness :
    incCounter 255 = if 255 = 255 then 0 else 255 + 1 :=
  counters_wrap_mod_256 255 (by decide)

/-- C6: a fully assembled frame whose recomputed checksum does not match the
received checksum is still delivered — `parse` returns the received payload
bytes intact, flagged `false`, and `vw_get_message` hands them to the
consumer with a `false` return flag. -/
theorem checksum_mismatch_still_delivered
    (st : RxState) (count len : Nat) (rest : List Nat)
    (hbuf : st.doneBuf = count :: rest)
    (h2 : 2 ≤ rest.length) (hc : count = rest.length)
    (hcap : rest.length - 2 ≤ len)
    (hbad : rest.drop (rest.length - 2)
        ≠ [fcs (count :: rest.take (rest.length - 2)) % 256,
           (fcs (count :: rest.take (rest.length - 2)) >>> 8) % 256]) :
    FrameCodec.parse (count :: rest) = some (rest.take (rest.length - 2), false)
    ∧ (vw_get_message st len).1 = rest.take (rest.length - 2)
    ∧ (vw_get_message st len).2.1 = false := by
  have hbeq : (rest.drop (rest.length - 2)
      == [fcs (count :: rest.take (rest.length - 2)) % 256,
          (fcs (count :: rest.take (rest.length - 2)) >>> 8) % 256]) = false :=
    beq_eq_false_iff_ne.mpr hbad
  have hparse : FrameCodec.parse (count :: rest)
      = some (rest.take (rest.length - 2), false) := by
    rw [parse_format count rest h2 hc, hbeq]
  refine ⟨hparse, ?_, ?_⟩
  · unfold vw_get_message
    rw [hbuf, hparse]
    have hlen : (rest.take (rest.length - 2)).length ≤ len := by
      rw [List.length_take]
      omega
    simp [List.take_of_length_le hlen]
  · unfold vw_get_message
    rw [hbuf, hparse]
    simp

/-- C6 witness: the frame built for `[1, 2, 3]` with its second payload byte
corrupted from 2 to 9 is still delivered, with a `false` checksum flag. -/
theorem checksum_mismatch_still_delivered_witness :
    FrameCodec.parse (5 :: [1, 9, 3, 126, 201])
        = some ([1, 9, 3, 126, 201].take ([1, 9, 3, 126, 201].length - 2), false)
    ∧ (vw_get_message ⟨false, 0, 0, 0, [], true, 5 :: [1, 9, 3, 126, 201], 0, 0⟩ 80).1
        = [1, 9, 3, 126, 201].take ([1, 9, 3, 126, 201].length - 2)
    ∧ (vw_get_message ⟨false, 0, 0, 0, [], true, 5 :: [1, 9, 3, 126, 201], 0, 0⟩ 80).2.1
        = false :=
  checksum_mismatch_still_delivered
    ⟨false, 0, 0, 0, [], true, 5 :: [1, 9, 3, 126, 201], 0, 0⟩ 5 80
    [1, 9, 3, 126, 201] rfl (by decide) (by decide) (by decide) (by decide)

/-- C7: a payload longer than the maximum payload length (77 bytes) is
rejected: `build` produces no frame and `vw_send` returns false leaving the
transmitter state untouched. -/
theorem payload_too_long_rejected (payload : List Nat) (tx : TxState)
    (h : VW_MAX_PAYLOAD < payload.length) :
    VW_MAX_PAYLOAD = 77
    ∧ FrameCodec.build payload = none
    ∧ vw_send tx payload = (false, tx) := by
  refine ⟨rfl, ?_, ?_⟩
  · unfold FrameCodec.build
    rw [if_pos h]
  · unfold vw_send
    rw [if_pos h]

/-- C7 witness: a 78-byte payload is rejected with the transmitter idle. -/
theorem payload_too_long_rejected_witness :
    VW_MAX_PAYLOAD = 77
    ∧ FrameCodec.build (List.replicate 78 0) = none
    ∧ vw_send txIdle (List.replicate 78 0) = (false, txIdle) :=
  payload_too_long_rejected (List.replicate 78 0) txIdle (by decide)

/-- C8: a 6-bit value decodes to a nibble exactly when it is one of the 16
table entries; every 6-bit value outside the table fails to decode. -/
theorem invalid_symbol_decode_fails :
    ∀ s : Fin 64, SymbolCodec.decode s.val = none ↔ s.val ∉ symbols := by
  decide

/-- C9: a `vw_send` call made while the transmitter is active returns false
(channel busy) and leaves the in-flight transmission state unchanged. -/
theorem send_while_transmitting_rejected (tx : TxState) (payload : List Nat)
    (h : vw_tx_active tx = true) :
    vw_send tx payload = (false, tx) := by
  unfold vw_send
  rw [h]
  split_ifs <;> simp_all

/-- C9 witness: `vw_send` against an active transmitter with a short payload. -/
theorem send_while_transmitting_rejected_witness :
    vw_send ⟨[0x2a], 0, true⟩ [7] = (false, ⟨[0x2a], 0, true⟩) :=
  send_while_transmitting_rejected ⟨[0x2a], 0, true⟩ [7] rfl

/-- C10: before any configuration call the defaults are transmit pin 12,
receive pin 11, PTT pin 10, receiver input not inverted, and PTT active-high
(driven high while the transmitter is enabled). -/
theorem default_configuration :
    defaultConfig.txPin = 12 ∧ defaultConfig.rxPin = 11
    ∧ defaultConfig.pttPin = 10 ∧ defaultConfig.rxInverted = false
    ∧ pttLevelWhenEnabled defaultConfig = true := by decide
